import Mathlib

/-!
Verification development for the trendmeai repository.

The definitions below are a shallow embedding of the checkpointed
generation pipeline: the error taxonomy and retry engine of
src/services/geminiService.ts, the news cache gate (fetchNewsArticles),
the content post-processing of generateTrendPostContent, the image-grid
splitting (splitImage) and placeholder degradation (generateGridImages,
generateGridImagesFromPrompts), the local checkpoint store
(persistenceService), the resume handlers of the InfluencerFeed
orchestrator, and the parallel image upload (uploadImages).

Remote collaborators (the generation service, the blob store, the
persistence backend) are modelled as oracles: a function from attempt
number to an outcome, or an explicit outcome argument.  JavaScript
strings are modelled as lists of characters; the heuristic substring
classification of wrapError is translated character for character.
-/

/-- JavaScript-style string: a list of characters. -/
abbrev JStr := List Char

/-- ASCII lowercasing of one character, modelling String.prototype.toLowerCase. -/
def lowerChar (c : Char) : Char :=
  if 65 ≤ c.toNat ∧ c.toNat ≤ 90 then Char.ofNat (c.toNat + 32) else c

/-- Lowercase a whole string. -/
def lowerChars (s : JStr) : JStr := s.map lowerChar

/-- Boolean prefix test on character lists. -/
def hasPrefixChars : JStr → JStr → Bool
  | [], _ => true
  | _ :: _, [] => false
  | a :: as, b :: bs => a == b && hasPrefixChars as bs

/-- Boolean substring test, modelling String.prototype.includes:
charsInclude hay needle is true when needle occurs contiguously in hay. -/
def charsInclude (hay needle : JStr) : Bool :=
  match hay with
  | [] => needle.isEmpty
  | _ :: rest => hasPrefixChars needle hay || charsInclude rest needle

/-- The observable shape of a JavaScript error value, as far as wrapError
inspects it: the optional message, the result of String(error), the
code === ECONNREFUSED test, instanceof GeminiTimeoutError, and
instanceof SyntaxError. -/
structure ErrorRep where
  message : Option JStr
  strRep : JStr
  codeEconnRefused : Bool
  isTimeoutInstance : Bool
  isSyntaxInstance : Bool
deriving DecidableEq

/-- The six classified error kinds of the taxonomy in geminiService.ts. -/
inductive ErrKind
  | quota
  | auth
  | network
  | timeout
  | parsing
  | generic
deriving DecidableEq

/-- wrapError from geminiService.ts: heuristic classification of a failure
into an error kind, by substring tests on the lowercased message and
stringification, in the exact order of the source. -/
def wrapError (e : ErrorRep) : ErrKind :=
  let em := lowerChars (e.message.getD [])
  let es := lowerChars e.strRep
  if charsInclude em "quota".toList || charsInclude em "rate limit".toList ||
     charsInclude es "quota".toList || charsInclude es "429".toList then
    ErrKind.quota
  else if charsInclude em "api key".toList || charsInclude em "unauthorized".toList ||
     charsInclude em "forbidden".toList || charsInclude es "401".toList ||
     charsInclude es "403".toList then
    ErrKind.auth
  else if charsInclude em "network".toList || charsInclude em "fetch".toList ||
     charsInclude em "connection".toList || e.codeEconnRefused then
    ErrKind.network
  else if e.isTimeoutInstance then
    ErrKind.timeout
  else if e.isSyntaxInstance || charsInclude em "json".toList || charsInclude em "parse".toList then
    ErrKind.parsing
  else
    ErrKind.generic

/-- Outcome of one invocation of the retried operation: the resolved value
or the raw thrown error. -/
inductive AttemptResult (α : Type)
  | ok (v : α)
  | err (e : ErrorRep)
deriving DecidableEq

/-- Observable behaviour of one retryWithBackoff run: how many times the
operation was invoked, the sleeps performed between attempts (in ms, in
order), and the final result (the value, or the classified kind of the
error it throws). -/
structure RetryTrace (α : Type) where
  invocations : Nat
  delays : List Nat
  result : Except ErrKind α

/-- A concrete error rep whose classification is Network: its message
contains the substring network. -/
def netErrRep : ErrorRep :=
  ⟨some "network connection failed".toList, "error".toList, false, false, false⟩

/-- A concrete error rep whose classification is Auth: its message contains
the substring unauthorized. -/
def authErrRep : ErrorRep :=
  ⟨some "unauthorized".toList, "error".toList, false, false, false⟩

/-- The loop body of retryWithBackoff: attempt is the 1-based loop counter,
remaining the number of loop iterations left (maxRetries - attempt + 1).
On success return the value; on failure classify, throw immediately for
auth and parsing kinds, otherwise sleep initialDelay * mult ^ (attempt - 1)
and retry while attempt < maxRetries, throwing the classified error once
attempts are exhausted.  The remaining = 0 case is the unreachable
fall-through after the loop, which wraps the last error (modelled as the
generic wrap of an absent error). -/
def retryAux {α : Type} (f : Nat → AttemptResult α)
    (maxRetries initialDelay mult : Nat) : Nat → Nat → RetryTrace α
  | _, 0 => ⟨0, [], Except.error ErrKind.generic⟩
  | attempt, remaining + 1 =>
    match f attempt with
    | AttemptResult.ok v => ⟨1, [], Except.ok v⟩
    | AttemptResult.err e =>
      let k := wrapError e
      if k = ErrKind.auth then ⟨1, [], Except.error k⟩
      else if k = ErrKind.parsing then ⟨1, [], Except.error k⟩
      else if attempt < maxRetries then
        let d := initialDelay * mult ^ (attempt - 1)
        let rest := retryAux f maxRetries initialDelay mult (attempt + 1) remaining
        ⟨rest.invocations + 1, d :: rest.delays, rest.result⟩
      else ⟨1, [], Except.error k⟩

/-- retryWithBackoff from geminiService.ts, as a trace-producing function of
an oracle f giving the outcome of each (1-based) attempt.  Defaults in the
source: maxRetries 3, initialDelay 1000, backoffMultiplier 2. -/
def retryWithBackoff {α : Type} (f : Nat → AttemptResult α)
    (maxRetries : Nat := 3) (initialDelay : Nat := 1000) (mult : Nat := 2) : RetryTrace α :=
  retryAux f maxRetries initialDelay mult 1 maxRetries

/-- Claim C5: under retryWithBackoff with maxRetries = 3, an operation that
fails with a Network-classified error on attempts 1 and 2 and succeeds on
attempt 3 is invoked exactly three times, the waits between attempts are
initialDelay * mult ^ 0 and initialDelay * mult ^ 1, and the third
attempt's value is returned. -/
theorem retryWithBackoff_network_then_success {α : Type}
    (f : Nat → AttemptResult α) (e₁ e₂ : ErrorRep) (v : α)
    (initialDelay mult : Nat)
    (h1 : f 1 = AttemptResult.err e₁) (h2 : f 2 = AttemptResult.err e₂)
    (h3 : f 3 = AttemptResult.ok v)
    (k1 : wrapError e₁ = ErrKind.network) (k2 : wrapError e₂ = ErrKind.network) :
    retryWithBackoff f 3 initialDelay mult =
      ⟨3, [initialDelay * mult ^ 0, initialDelay * mult ^ 1], Except.ok v⟩ := by
  simp [retryWithBackoff, retryAux, h1, h2, h3, k1, k2]

/-- Concrete run of retryWithBackoff_network_then_success: a network error
rep thrown twice, success on the third attempt. -/
theorem retryWithBackoff_network_then_success_witness :
    (fun a => if a ≤ 2 then AttemptResult.err netErrRep else AttemptResult.ok 7) 1 =
      AttemptResult.err netErrRep ∧
    (fun a => if a ≤ 2 then AttemptResult.err netErrRep else AttemptResult.ok 7) 2 =
      AttemptResult.err netErrRep ∧
    (fun a => if a ≤ 2 then AttemptResult.err netErrRep else AttemptResult.ok 7) 3 =
      AttemptResult.ok 7 ∧
    wrapError netErrRep = ErrKind.network ∧
    retryWithBackoff
      (fun a => if a ≤ 2 then AttemptResult.err netErrRep else AttemptResult.ok 7) 3 1000 2 =
      ⟨3, [1000 * 2 ^ 0, 1000 * 2 ^ 1], Except.ok 7⟩ := by
  refine ⟨rfl, rfl, rfl, by decide, ?_⟩
  exact retryWithBackoff_network_then_success _ netErrRep netErrRep 7 1000 2
    rfl rfl rfl (by decide) (by decide)

/-- Claim C6: an operation whose first failure is classified Auth or
Parsing is invoked exactly once by retryWithBackoff and the classified
error is raised with no retry, for every maxRetries of at least one. -/
theorem retryWithBackoff_auth_parsing_no_retry {α : Type}
    (f : Nat → AttemptResult α) (e : ErrorRep)
    (maxRetries initialDelay mult : Nat)
    (hmax : 1 ≤ maxRetries)
    (h1 : f 1 = AttemptResult.err e)
    (hk : wrapError e = ErrKind.auth ∨ wrapError e = ErrKind.parsing) :
    retryWithBackoff f maxRetries initialDelay mult =
      ⟨1, [], Except.error (wrapError e)⟩ := by
  obtain ⟨m, rfl⟩ : ∃ m, maxRetries = m + 1 :=
    ⟨maxRetries - 1, (Nat.succ_pred_eq_of_pos hmax).symm⟩
  rcases hk with hk | hk <;> simp [retryWithBackoff, retryAux, h1, hk]

/-- Concrete run of retryWithBackoff_auth_parsing_no_retry: an auth error
rep on the first attempt with maxRetries = 3. -/
theorem retryWithBackoff_auth_parsing_no_retry_witness :
    1 ≤ 3 ∧
    (fun _ => (AttemptResult.err authErrRep : AttemptResult Nat)) 1 =
      AttemptResult.err authErrRep ∧
    (wrapError authErrRep = ErrKind.auth ∨ wrapError authErrRep = ErrKind.parsing) ∧
    retryWithBackoff (fun _ => (AttemptResult.err authErrRep : AttemptResult Nat)) 3 1000 2 =
      ⟨1, [], Except.error (wrapError authErrRep)⟩ := by
  refine ⟨by decide, rfl, Or.inl (by decide), ?_⟩
  exact retryWithBackoff_auth_parsing_no_retry (α := Nat) _ authErrRep 3 1000 2
    (by decide) rfl (Or.inl (by decide))

/-- One sub-image cut from the composite: the top-left corner of its source
region in the composite and its pixel dimensions, as computed by splitImage
via canvas drawImage.  JavaScript number division is modelled exactly by
rational division. -/
structure Piece where
  srcX : ℚ
  srcY : ℚ
  width : ℚ
  height : ℚ
deriving DecidableEq

/-- splitImage from geminiService.ts: cut a W x H composite into a
rows x cols grid.  The nested for loops (y outer over rows, x inner over
cols) push one piece per cell, so the result is the row-major flatMap of
the per-row pieces; the piece at cell (y, x) has source origin
(x * W / cols, y * H / rows) and dimensions W / cols by H / rows. -/
def splitImage (W H : ℚ) (rows cols : Nat) : List Piece :=
  (List.range rows).flatMap fun (y : Nat) =>
    (List.range cols).map fun (x : Nat) =>
      ⟨(x : ℚ) * (W / (cols : ℚ)), (y : ℚ) * (H / (rows : ℚ)), W / (cols : ℚ), H / (rows : ℚ)⟩

/-- A double iteration producing cols items per row, flattened, is the same
as a single row-major iteration indexed by i = row * cols + col. -/
theorem flatMap_range_map {α : Type} (g : Nat → Nat → α) (rows cols : Nat) :
    (List.range rows).flatMap (fun y => (List.range cols).map (g y)) =
    (List.range (rows * cols)).map (fun i => g (i / cols) (i % cols)) := by
  induction rows with
  | zero => simp
  | succ n ih =>
    rw [List.range_succ, List.flatMap_append, ih, Nat.succ_mul, List.range_add,
      List.map_append, List.map_map]
    congr 1
    · simp only [List.flatMap_cons, List.flatMap_nil, List.append_nil]
      apply List.map_congr_left
      intro j hj
      have hjc : j < cols := List.mem_range.mp hj
      simp only [Function.comp_apply]
      have h1 : (n * cols + j) / cols = n := by
        rw [Nat.add_comm, Nat.add_mul_div_right _ _ (by omega : 0 < cols),
          Nat.div_eq_of_lt hjc, Nat.zero_add]
      have h2 : (n * cols + j) % cols = j := by
        rw [Nat.add_comm, Nat.add_mul_mod_self_right, Nat.mod_eq_of_lt hjc]
      rw [h1, h2]

/-- Claim C7: splitImage on a W x H composite and any grid shape produces
exactly rows * cols sub-images, each of dimension W / cols by H / rows,
and the sub-image at list index row * cols + col is the region whose
top-left corner is (col * W / cols, row * H / rows) - row-major order. -/
theorem splitImage_spec (W H : ℚ) (rows cols r c : Nat) (hr : r < rows) (hc : c < cols) :
    (splitImage W H rows cols).length = rows * cols ∧
    (splitImage W H rows cols)[r * cols + c]? =
      some ⟨(c : ℚ) * (W / (cols : ℚ)), (r : ℚ) * (H / (rows : ℚ)),
        W / (cols : ℚ), H / (rows : ℚ)⟩ := by
  have heq := flatMap_range_map
    (fun y x => (⟨(x : ℚ) * (W / (cols : ℚ)), (y : ℚ) * (H / (rows : ℚ)),
      W / (cols : ℚ), H / (rows : ℚ)⟩ : Piece)) rows cols
  rw [splitImage, heq]
  have hidx : r * cols + c < rows * cols := by
    calc r * cols + c < r * cols + cols := by omega
    _ = (r + 1) * cols := by ring
    _ ≤ rows * cols := Nat.mul_le_mul_right _ (by omega)
  constructor
  · rw [List.length_map, List.length_range]
  · rw [List.getElem?_map, List.getElem?_range hidx]
    rw [Option.map_some']
    have h1 : (r * cols + c) / cols = r := by
      rw [Nat.add_comm, Nat.add_mul_div_right _ _ (by omega : 0 < cols),
        Nat.div_eq_of_lt hc, Nat.zero_add]
    have h2 : (r * cols + c) % cols = c := by
      rw [Nat.add_comm, Nat.add_mul_mod_self_right, Nat.mod_eq_of_lt hc]
    rw [h1, h2]

/-- Concrete run of splitImage_spec: an 800 x 600 composite cut 2 x 2; the
piece at row-major index 2 (row 1, col 0) starts at (0, 300). -/
theorem splitImage_spec_witness :
    1 < 2 ∧ 0 < 2 ∧
    (splitImage 800 600 2 2).length = 2 * 2 ∧
    (splitImage 800 600 2 2)[1 * 2 + 0]? =
      some ⟨(0 : ℚ) * ((800 : ℚ) / (2 : ℚ)), (1 : ℚ) * ((600 : ℚ) / (2 : ℚ)),
        (800 : ℚ) / (2 : ℚ), (600 : ℚ) / (2 : ℚ)⟩ := by
  refine ⟨by decide, by decide, ?_⟩
  exact splitImage_spec 800 600 2 2 1 0 (by decide) (by decide)

/-- The two grid shapes offered by the UI. -/
inductive GridType
  | g2x2
  | g3x3
deriving DecidableEq

/-- Rows of a grid shape; both grids are square so cols = rows.  In the
source: rows = gridType === 2x2 ? 2 : 3 and cols = rows. -/
def gridRows (g : GridType) : Nat :=
  match g with
  | GridType.g2x2 => 2
  | GridType.g3x3 => 3

/-- GridImageContext from types.ts: the creative context handed to
generateGridImages.  Only prompt text is built from it, so no field
influences the returned value shape. -/
structure GridImageContext where
  topic : JStr
  summary : JStr
  storyNarrative : JStr
  slideDescriptions : List JStr
  colorPalette : JStr
  visualMood : JStr
  influencerName : JStr
  visualStyle : JStr
  personality : JStr
  niche : JStr
deriving DecidableEq

/-- One response of the image model: an inline composite image of the given
pixel dimensions, a response with no inline image part, or a thrown
failure. -/
inductive GenResponse
  | image (W H : ℚ)
  | noImage
  | fail (e : ErrorRep)

/-- The error rep of a thrown GeminiParsingError: its fixed message (which
contains the substring parse, so wrapError classifies it Parsing). -/
def geminiParsingRep : ErrorRep :=
  ⟨some "failed to parse api response. the data format was unexpected.".toList,
   "error".toList, false, false, false⟩

/-- An individual image as returned by the grid generators: either a slice
of the composite (a canvas data URL) or the picsum placeholder URL. -/
inductive OutImage
  | piece (p : Piece)
  | placeholder
deriving DecidableEq

/-- The body passed to retryWithBackoff by both grid generators: scan the
response parts for inline image data and split it; if none is found throw
a GeminiParsingError; a failed call rethrows its error. -/
def gridAttempt (rows cols : Nat) (resp : GenResponse) : AttemptResult (List OutImage) :=
  match resp with
  | GenResponse.image W H => AttemptResult.ok ((splitImage W H rows cols).map OutImage.piece)
  | GenResponse.noImage => AttemptResult.err geminiParsingRep
  | GenResponse.fail e => AttemptResult.err e

/-- generateGridImages from geminiService.ts, with the image model as an
oracle from attempt number to response: retryWithBackoff with maxRetries 2;
on total failure catch and return rows * cols placeholder images. -/
def generateGridImages (context : GridImageContext) (resp : Nat → GenResponse)
    (gridType : GridType) : List OutImage :=
  let rows := gridRows gridType
  let cols := rows
  match (retryWithBackoff (fun a => gridAttempt rows cols (resp a)) 2 1000 2).result with
  | Except.ok imgs => imgs
  | Except.error _ => List.replicate (rows * cols) OutImage.placeholder

/-- generateGridImagesFromPrompts from geminiService.ts: identical control
flow to generateGridImages with a per-panel prompt list instead of the
creative context. -/
def generateGridImagesFromPrompts (prompts : List JStr) (resp : Nat → GenResponse)
    (gridType : GridType) : List OutImage :=
  let rows := gridRows gridType
  let cols := rows
  match (retryWithBackoff (fun a => gridAttempt rows cols (resp a)) 2 1000 2).result with
  | Except.ok imgs => imgs
  | Except.error _ => List.replicate (rows * cols) OutImage.placeholder

/-- A two-attempt retryWithBackoff run in which both attempts throw ends
with one of the two classified errors as its result. -/
theorem retry2_result_err {α : Type} (f : Nat → AttemptResult α) (d m : Nat) (e₁ e₂ : ErrorRep)
    (h1 : f 1 = AttemptResult.err e₁) (h2 : f 2 = AttemptResult.err e₂) :
    (retryWithBackoff f 2 d m).result = Except.error (wrapError e₁) ∨
    (retryWithBackoff f 2 d m).result = Except.error (wrapError e₂) := by
  by_cases a1 : wrapError e₁ = ErrKind.auth <;> by_cases p1 : wrapError e₁ = ErrKind.parsing <;>
  by_cases a2 : wrapError e₂ = ErrKind.auth <;> by_cases p2 : wrapError e₂ = ErrKind.parsing <;>
  simp [retryWithBackoff, retryAux, h1, h2, a1, p1, a2, p2]

/-- Every attempt that is not an inline image yields a thrown error in the
retried body. -/
theorem gridAttempt_err_of_not_image (rows cols : Nat) (r : GenResponse)
    (h : ∀ W H, r ≠ GenResponse.image W H) :
    ∃ e, gridAttempt rows cols r = AttemptResult.err e := by
  cases r with
  | image W H => exact absurd rfl (h W H)
  | noImage => exact ⟨geminiParsingRep, rfl⟩
  | fail e => exact ⟨e, rfl⟩

/-- Claim C8: when image grid generation fails on every attempt of its
2-attempt retry budget (whether by thrown error or by a response with no
image payload), generateGridImages and generateGridImagesFromPrompts do
not propagate the error: each returns exactly rows * cols placeholder
images. -/
theorem gridImages_placeholder_on_failure (context : GridImageContext)
    (prompts : List JStr) (resp : Nat → GenResponse) (g : GridType)
    (h : ∀ a W H, resp a ≠ GenResponse.image W H) :
    generateGridImages context resp g =
      List.replicate (gridRows g * gridRows g) OutImage.placeholder ∧
    generateGridImagesFromPrompts prompts resp g =
      List.replicate (gridRows g * gridRows g) OutImage.placeholder ∧
    (generateGridImages context resp g).length = gridRows g * gridRows g ∧
    (generateGridImagesFromPrompts prompts resp g).length = gridRows g * gridRows g := by
  obtain ⟨e₁, he₁⟩ := gridAttempt_err_of_not_image (gridRows g) (gridRows g) (resp 1) (h 1)
  obtain ⟨e₂, he₂⟩ := gridAttempt_err_of_not_image (gridRows g) (gridRows g) (resp 2) (h 2)
  have herr := retry2_result_err (fun a => gridAttempt (gridRows g) (gridRows g) (resp a))
    1000 2 e₁ e₂ he₁ he₂
  have hmain : generateGridImages context resp g =
      List.replicate (gridRows g * gridRows g) OutImage.placeholder := by
    rw [generateGridImages]
    rcases herr with herr | herr <;> rw [herr]
  have hprompts : generateGridImagesFromPrompts prompts resp g =
      List.replicate (gridRows g * gridRows g) OutImage.placeholder := by
    rw [generateGridImagesFromPrompts]
    rcases herr with herr | herr <;> rw [herr]
  exact ⟨hmain, hprompts, by rw [hmain, List.length_replicate],
    by rw [hprompts, List.length_replicate]⟩

/-- Concrete run of gridImages_placeholder_on_failure: every response lacks
an image payload; a 3 x 3 request degrades to nine placeholders. -/
theorem gridImages_placeholder_on_failure_witness :
    (∀ (a : Nat) (W H : ℚ), (fun (_ : Nat) => GenResponse.noImage) a ≠ GenResponse.image W H) ∧
    generateGridImages ⟨[], [], [], [], [], [], [], [], [], []⟩
        (fun (_ : Nat) => GenResponse.noImage) GridType.g3x3 =
      List.replicate (gridRows GridType.g3x3 * gridRows GridType.g3x3) OutImage.placeholder ∧
    generateGridImagesFromPrompts [] (fun (_ : Nat) => GenResponse.noImage) GridType.g3x3 =
      List.replicate (gridRows GridType.g3x3 * gridRows GridType.g3x3) OutImage.placeholder ∧
    (generateGridImages ⟨[], [], [], [], [], [], [], [], [], []⟩
        (fun (_ : Nat) => GenResponse.noImage) GridType.g3x3).length =
      gridRows GridType.g3x3 * gridRows GridType.g3x3 ∧
    (generateGridImagesFromPrompts [] (fun (_ : Nat) => GenResponse.noImage) GridType.g3x3).length =
      gridRows GridType.g3x3 * gridRows GridType.g3x3 := by
  refine ⟨(fun a W H hcon => nomatch hcon), ?_⟩
  have hc := gridImages_placeholder_on_failure ⟨[], [], [], [], [], [], [], [], [], []⟩
    [] (fun (_ : Nat) => GenResponse.noImage) GridType.g3x3 (fun a W H hcon => nomatch hcon)
  exact ⟨hc.1, hc.2.1, hc.2.2.1, hc.2.2.2⟩

/-- TrendSignal from types.ts: a discovered trend record. -/
structure TrendSignal where
  id : JStr
  headline : JStr
  summary : JStr
  relevanceScore : ℚ
  sourceUrl : Option JStr
  context : JStr
deriving DecidableEq

/-- GeneratedTrend from types.ts: the normalized content object produced by
generateTrendPostContent. -/
structure GeneratedTrend where
  topic : JStr
  summary : JStr
  caption : JStr
  hashtags : List JStr
  storyNarrative : JStr
  slideDescriptions : List JStr
  colorPalette : JStr
  visualMood : JStr
  sourceUrls : List JStr
deriving DecidableEq

/-- The successfully parsed JSON object of one generateTrendPostContent
response, field by field: none models an absent (or, for the arrays, a
non-array) property, some an actual value (possibly the empty string,
which JavaScript treats as falsy in the || defaults). -/
structure TrendRespData where
  topic : Option JStr
  summary : Option JStr
  caption : Option JStr
  hashtags : Option (List JStr)
  storyNarrative : Option JStr
  visualMood : Option JStr
  colorPalette : Option JStr
  slideDescriptions : Option (List JStr)
deriving DecidableEq

/-- JavaScript a || b for an optional string a: produce b when a is absent
or empty (falsy), a otherwise. -/
def jsOr (v : Option JStr) (d : JStr) : JStr :=
  match v with
  | some s => if s.isEmpty then d else s
  | none => d

/-- The fixed ordered fallback story beats of generateTrendPostContent:
four base beats, five more pushed when numSlides exceeds 4, then
slice(0, numSlides). -/
def fallbackBeats (topicName influencerName : JStr) (numSlides : Nat) : List JStr :=
  let base := [
    "Opening hook — bold visual or statement about ".toList ++ topicName ++
      " that stops the scroll".toList,
    influencerName ++
      " in their element, candid and unposed, connecting the topic to their personal world".toList,
    "Key insight or data point presented with editorial typography".toList,
    "The emotional core — why this matters, shown through a personal lens".toList]
  let beats := if numSlides > 4 then base ++ [
    "Deeper context — behind the scenes or real-world evidence".toList,
    "A provocative question or contrarian take to spark engagement".toList,
    "Visual proof or example that makes the abstract concrete".toList,
    "Community voice — quotes, DMs, or crowd reactions".toList,
    "Closing CTA — personal sign-off with personality".toList]
  else base
  beats.take numSlides

/-- The string pushed by the pad loop of generateTrendPostContent. -/
def padBeat (topicName influencerName : JStr) : JStr :=
  "Additional perspective on ".toList ++ topicName ++ " from ".toList ++ influencerName ++
    "\x27s point of view".toList

/-- The pad loop of generateTrendPostContent: push padBeat while the list
is shorter than numSlides.  Each iteration grows the list by one, so
numSlides iterations always suffice; the fuel argument makes that bound
explicit and the recursion structural. -/
def padSlidesAux (pad : JStr) (numSlides : Nat) : Nat → List JStr → List JStr
  | 0, xs => xs
  | fuel + 1, xs =>
    if xs.length < numSlides then padSlidesAux pad numSlides fuel (xs ++ [pad]) else xs

/-- The pad loop of generateTrendPostContent, entered with its sufficient
fuel bound. -/
def padSlides (pad : JStr) (numSlides : Nat) (xs : List JStr) : List JStr :=
  padSlidesAux pad numSlides numSlides xs

/-- numSlides of generateTrendPostContent: gridType === 2x2 ? 4 : 9. -/
def numSlidesFor (g : GridType) : Nat :=
  if g = GridType.g2x2 then 4 else 9

/-- The result-construction tail of generateTrendPostContent (everything
after a successful parse): defaulting of each field, the fallback beats
when slideDescriptions is missing or empty, and the pad loop.  data is the
parsed response, sourceUrls the grounding urls already collected from the
response and the specific trend. -/
def generateTrendPostContentPost (data : TrendRespData) (gridType : GridType)
    (specificTrend : Option TrendSignal) (influencerName : JStr)
    (sourceUrls : List JStr) : GeneratedTrend :=
  let numSlides := numSlidesFor gridType
  let topicName := jsOr data.topic (jsOr (specificTrend.map TrendSignal.headline) "Update".toList)
  let slides0 := data.slideDescriptions.getD []
  let slides1 :=
    if slides0.length = 0 then fallbackBeats topicName influencerName numSlides else slides0
  let slides := padSlides (padBeat topicName influencerName) numSlides slides1
  { topic := topicName
    summary := jsOr data.summary (jsOr (specificTrend.map TrendSignal.summary) [])
    caption := jsOr data.caption ("check this out... talking about ".toList ++
      lowerChars topicName ++ " today 💭".toList)
    hashtags := data.hashtags.getD []
    storyNarrative := jsOr data.storyNarrative ("A visual story exploring ".toList ++
      topicName ++ " through the lens of ".toList ++ influencerName ++ ".".toList)
    visualMood := jsOr data.visualMood "raw documentary feel with warm natural tones".toList
    colorPalette := jsOr data.colorPalette
      "warm amber, soft white, deep charcoal, muted sage".toList
    slideDescriptions := slides
    sourceUrls := sourceUrls }

/-- With enough fuel, the pad loop stops at length max numSlides xs.length:
it never removes elements. -/
theorem padSlidesAux_length (pad : JStr) (numSlides : Nat) :
    ∀ (fuel : Nat) (xs : List JStr), numSlides ≤ xs.length + fuel →
      (padSlidesAux pad numSlides fuel xs).length = max numSlides xs.length := by
  intro fuel
  induction fuel with
  | zero =>
    intro xs h
    simp only [padSlidesAux]
    omega
  | succ n ih =>
    intro xs h
    rw [padSlidesAux]
    by_cases hlt : xs.length < numSlides
    · rw [if_pos hlt, ih (xs ++ [pad]) (by simp; omega)]
      simp
      omega
    · rw [if_neg hlt]
      omega

/-- The pad loop run with its actual fuel. -/
theorem padSlides_length (pad : JStr) (numSlides : Nat) (xs : List JStr) :
    (padSlides pad numSlides xs).length = max numSlides xs.length :=
  padSlidesAux_length pad numSlides numSlides xs (by omega)

/-- Claim C1 fails on the code: when the generation service returns more
slide descriptions than the panel count, generateTrendPostContent keeps
them all.  Concretely, a 2x2 request whose response carries five beats
returns five slide descriptions, not four. -/
theorem generateTrendPostContent_no_truncation_counterexample :
    (generateTrendPostContentPost
      ⟨none, none, none, none, none, none, none,
        some ["a".toList, "b".toList, "c".toList, "d".toList, "e".toList]⟩
      GridType.g2x2 none "Ava".toList []).slideDescriptions.length = 5 ∧
    ¬ (generateTrendPostContentPost
      ⟨none, none, none, none, none, none, none,
        some ["a".toList, "b".toList, "c".toList, "d".toList, "e".toList]⟩
      GridType.g2x2 none "Ava".toList []).slideDescriptions.length = 4 := by
  exact ⟨rfl, by decide⟩

/-- Claim C1 amended: generateTrendPostContent pads but does not truncate.
The returned slideDescriptions list has length exactly the panel count
(4 for 2x2, 9 for 3x3) whenever the generation service returned at most
panel-count beats (including none at all, covered by the fallback beats),
and length equal to the returned count when the service returned more -
that is, the length is the panel count when the parsed list is empty and
max(panel count, returned count) otherwise. -/
theorem generateTrendPostContent_slide_length (data : TrendRespData) (gridType : GridType)
    (specificTrend : Option TrendSignal) (influencerName : JStr) (sourceUrls : List JStr) :
    (generateTrendPostContentPost data gridType specificTrend influencerName
      sourceUrls).slideDescriptions.length =
      if (data.slideDescriptions.getD []).length = 0 then numSlidesFor gridType
      else max (numSlidesFor gridType) (data.slideDescriptions.getD []).length := by
  simp only [generateTrendPostContentPost]
  by_cases h : (data.slideDescriptions.getD []).length = 0
  · rw [if_pos h, if_pos h, padSlides_length]
    cases gridType <;> simp [fallbackBeats, numSlidesFor]
  · rw [if_neg h, if_neg h, padSlides_length]

/-- The three states of the per-niche NewsFetchMetadata record. -/
inductive FetchStatus
  | inProgress
  | completed
  | failed
deriving DecidableEq

/-- The per-niche metadata record read by getNewsMetadata. -/
structure NewsMeta where
  lastFetchTime : Nat
  status : FetchStatus
  articleCount : Nat
deriving DecidableEq

/-- NewsArticle from types.ts; usedByPosts entries are
(postId, userId, influencerId) references. -/
structure NewsArticle where
  id : JStr
  niche : JStr
  headline : JStr
  summary : JStr
  fullContext : JStr
  sourceUrl : Option JStr
  relevanceScore : ℚ
  fetchedAt : Nat
  usageCount : Nat
  usedByPosts : List (JStr × JStr × JStr)
deriving DecidableEq

/-- The externally observable operations of one fetchNewsArticles run, in
order: the metadata read, the Firestore cache read (fetchNewsForNiche),
the in-progress metadata write (markFetchInProgress), the generation
service discovery call (discoverNewsArticles), the article batch write
that also marks the record completed (saveNewsArticles), and a
failed-status metadata write - which no function of the repository
performs, but which the claimed behaviour requires. -/
inductive NewsOp
  | getMetadata
  | fetchCache
  | markInProgress
  | callDiscovery
  | saveArticles
  | markFailed
deriving DecidableEq

/-- 1 hour in ms (the completed-record refresh window). -/
def ONE_HOUR : Nat := 60 * 60 * 1000

/-- 2 minutes in ms (the in-progress staleness timeout). -/
def IN_PROGRESS_TIMEOUT : Nat := 2 * 60 * 1000

/-- Steps 3-5 of fetchNewsArticles plus its catch block: mark in-progress,
call discovery; on success save the articles when non-empty (which marks
the record completed) and return them; on a thrown error, enter the catch
block - which only constructs a local failed-status object without
writing it - then fall back to the (possibly stale) cache, rethrowing the
original error when the cache is empty. -/
def freshFetch (cached : List NewsArticle)
    (discovery : Except ErrorRep (List NewsArticle)) :
    List NewsOp × Except ErrorRep (List NewsArticle) :=
  match discovery with
  | Except.ok articles =>
    ([NewsOp.markInProgress, NewsOp.callDiscovery] ++
      (if articles.length > 0 then [NewsOp.saveArticles] else []),
     Except.ok articles)
  | Except.error e =>
    ([NewsOp.markInProgress, NewsOp.callDiscovery, NewsOp.fetchCache],
     if cached.length > 0 then Except.ok cached else Except.error e)

/-- fetchNewsArticles from geminiService.ts, as a function of the metadata
record it reads, the allowRetry flag, the current time, the cached
articles fetchNewsForNiche returns, and the outcome of discovery.  The
first component is the full ordered trace of observable operations, the
second the returned value or rethrown error.  The cache-serving branches
of step 2 fire only when a record exists and allowRetry is false;
otherwise the run proceeds as a fresh fetch. -/
def fetchNewsArticles (metadata : Option NewsMeta) (allowRetry : Bool) (now : Nat)
    (cached : List NewsArticle) (discovery : Except ErrorRep (List NewsArticle)) :
    List NewsOp × Except ErrorRep (List NewsArticle) :=
  let early : Option (List NewsOp × Except ErrorRep (List NewsArticle)) :=
    match metadata, allowRetry with
    | some m, false =>
      let timeSinceLastFetch := now - m.lastFetchTime
      match m.status with
      | FetchStatus.inProgress =>
        if timeSinceLastFetch < IN_PROGRESS_TIMEOUT then
          some ([NewsOp.fetchCache],
            Except.ok (if cached.length > 0 then cached else []))
        else none
      | FetchStatus.completed =>
        if timeSinceLastFetch < ONE_HOUR then
          some ([NewsOp.fetchCache], Except.ok cached)
        else none
      | FetchStatus.failed => none
    | _, _ => none
  match early with
  | some (ops, r) => (NewsOp.getMetadata :: ops, r)
  | none =>
    let fresh := freshFetch cached discovery
    (NewsOp.getMetadata :: fresh.1, fresh.2)

/-- Claim C3: with a completed metadata record younger than one hour and
allowRetry = false, fetchNewsArticles performs only the metadata read and
the cache read - in particular no discovery call, hence no generation
service invocation - and returns the cached articles. -/
theorem fetchNews_cache_only (m : NewsMeta) (now : Nat) (cached : List NewsArticle)
    (discovery : Except ErrorRep (List NewsArticle))
    (hst : m.status = FetchStatus.completed)
    (hage : now - m.lastFetchTime < ONE_HOUR) :
    fetchNewsArticles (some m) false now cached discovery =
      ([NewsOp.getMetadata, NewsOp.fetchCache], Except.ok cached) ∧
    NewsOp.callDiscovery ∉ (fetchNewsArticles (some m) false now cached discovery).1 := by
  have h : fetchNewsArticles (some m) false now cached discovery =
      ([NewsOp.getMetadata, NewsOp.fetchCache], Except.ok cached) := by
    simp [fetchNewsArticles, hst, hage]
  refine ⟨h, ?_⟩
  rw [h]
  simp

/-- Concrete run of fetchNews_cache_only: a completed record 10 minutes
old; one cached article; a discovery oracle that would fail if consulted. -/
theorem fetchNews_cache_only_witness :
    (⟨0, FetchStatus.completed, 1⟩ : NewsMeta).status = FetchStatus.completed ∧
    600000 - (⟨0, FetchStatus.completed, 1⟩ : NewsMeta).lastFetchTime < ONE_HOUR ∧
    (fetchNewsArticles (some ⟨0, FetchStatus.completed, 1⟩) false 600000
        [⟨"a1".toList, "tech".toList, "h".toList, "s".toList, "f".toList, none, 80, 0, 0, []⟩]
        (Except.error netErrRep) =
      ([NewsOp.getMetadata, NewsOp.fetchCache], Except.ok
        [⟨"a1".toList, "tech".toList, "h".toList, "s".toList, "f".toList, none, 80, 0, 0, []⟩]) ∧
    NewsOp.callDiscovery ∉ (fetchNewsArticles (some ⟨0, FetchStatus.completed, 1⟩) false 600000
        [⟨"a1".toList, "tech".toList, "h".toList, "s".toList, "f".toList, none, 80, 0, 0, []⟩]
        (Except.error netErrRep)).1) := by
  refine ⟨rfl, by decide, ?_⟩
  exact fetchNews_cache_only ⟨0, FetchStatus.completed, 1⟩ 600000
    [⟨"a1".toList, "tech".toList, "h".toList, "s".toList, "f".toList, none, 80, 0, 0, []⟩]
    (Except.error netErrRep) rfl (by decide)

/-- Claim C4 fails on the code: no run of fetchNewsArticles ever writes a
failed status to the persistence service - the catch block only constructs
a local object and logs.  In particular the concrete failing run (no
record, discovery fails, no cache) rethrows the error with the trace
metadata read, in-progress write, discovery call, cache read: the record
is left in-progress, never marked failed. -/
theorem fetchNews_mark_failed_never_written :
    (∀ (metadata : Option NewsMeta) (allowRetry : Bool) (now : Nat)
      (cached : List NewsArticle) (discovery : Except ErrorRep (List NewsArticle)),
      NewsOp.markFailed ∉ (fetchNewsArticles metadata allowRetry now cached discovery).1) ∧
    fetchNewsArticles none false 0 [] (Except.error netErrRep) =
      ([NewsOp.getMetadata, NewsOp.markInProgress, NewsOp.callDiscovery, NewsOp.fetchCache],
        Except.error netErrRep) := by
  constructor
  · intro metadata allowRetry now cached discovery
    cases metadata with
    | none =>
      cases discovery with
      | ok articles =>
        by_cases h : articles.length > 0 <;>
          simp [fetchNewsArticles, freshFetch, h]
      | error e => simp [fetchNewsArticles, freshFetch]
    | some m =>
      cases allowRetry with
      | true =>
        cases discovery with
        | ok articles =>
          by_cases h : articles.length > 0 <;>
            simp [fetchNewsArticles, freshFetch, h]
        | error e => simp [fetchNewsArticles, freshFetch]
      | false =>
        cases hst : m.status with
        | inProgress =>
          by_cases hage : now - m.lastFetchTime < IN_PROGRESS_TIMEOUT
          · simp [fetchNewsArticles, hst, hage]
          · cases discovery with
            | ok articles =>
              by_cases h : articles.length > 0 <;>
                simp [fetchNewsArticles, freshFetch, hst, hage, h]
            | error e => simp [fetchNewsArticles, freshFetch, hst, hage]
        | completed =>
          by_cases hage : now - m.lastFetchTime < ONE_HOUR
          · simp [fetchNewsArticles, hst, hage]
          · cases discovery with
            | ok articles =>
              by_cases h : articles.length > 0 <;>
                simp [fetchNewsArticles, freshFetch, hst, hage, h]
            | error e => simp [fetchNewsArticles, freshFetch, hst, hage]
        | failed =>
          cases discovery with
          | ok articles =>
            by_cases h : articles.length > 0 <;>
              simp [fetchNewsArticles, freshFetch, hst, h]
          | error e => simp [fetchNewsArticles, freshFetch, hst]
  · rfl

/-- The step tag of a post-generation checkpoint. -/
inductive PostStep
  | content
  | images
  | upload
deriving DecidableEq

/-- PostGenerationCheckpoint from persistenceService: the durable record of
post-pipeline progress, keyed by influencerId. -/
structure PostGenerationCheckpoint where
  influencerId : JStr
  influencerName : JStr
  timestamp : Nat
  step : PostStep
  content : Option GeneratedTrend
  images : Option (List JStr)
  gridType : Option GridType
deriving DecidableEq

/-- The JSON object keys occurring in a serialized checkpoint. -/
inductive JKey
  | influencerId
  | influencerName
  | timestamp
  | step
  | content
  | images
  | gridType
  | topic
  | summary
  | caption
  | hashtags
  | storyNarrative
  | slideDescriptions
  | colorPalette
  | visualMood
  | sourceUrls
deriving DecidableEq

/-- The JSON value tree JSON.stringify writes and JSON.parse reads back.
Numbers are restricted to the naturals actually serialized (timestamps);
object keys to the checkpoint field names. -/
inductive Json
  | null
  | bool (b : Bool)
  | num (n : Nat)
  | str (s : JStr)
  | arr (xs : List Json)
  | obj (fields : List (JKey × Json))

/-- First value stored under a key in a JSON object (JavaScript property
access on the parsed object). -/
def jlookup (k : JKey) : List (JKey × Json) → Option Json
  | [] => none
  | (k', v) :: rest => if k = k' then some v else jlookup k rest

/-- Read a JSON value as a string. -/
def Json.asStr : Json → Option JStr
  | Json.str s => some s
  | _ => none

/-- Read a JSON value as a natural number. -/
def Json.asNum : Json → Option Nat
  | Json.num n => some n
  | _ => none

/-- Read a JSON value as an array of strings. -/
def Json.asStrList : Json → Option (List JStr)
  | Json.arr xs => xs.mapM Json.asStr
  | _ => none

/-- Serialization of the step tag. -/
def encodeStepJson : PostStep → Json
  | PostStep.content => Json.str "content".toList
  | PostStep.images => Json.str "images".toList
  | PostStep.upload => Json.str "upload".toList

/-- Deserialization of the step tag. -/
def decodeStepJson (j : Json) : Option PostStep :=
  match j.asStr with
  | some s =>
    if s = "content".toList then some PostStep.content
    else if s = "images".toList then some PostStep.images
    else if s = "upload".toList then some PostStep.upload
    else none
  | none => none

/-- Serialization of the grid shape. -/
def encodeGridTypeJson : GridType → Json
  | GridType.g2x2 => Json.str "2x2".toList
  | GridType.g3x3 => Json.str "3x3".toList

/-- Deserialization of the grid shape. -/
def decodeGridTypeJson (j : Json) : Option GridType :=
  match j.asStr with
  | some s =>
    if s = "2x2".toList then some GridType.g2x2
    else if s = "3x3".toList then some GridType.g3x3
    else none
  | none => none

/-- JSON.stringify of a GeneratedTrend value. -/
def encodeTrend (t : GeneratedTrend) : Json :=
  Json.obj [
    (JKey.topic, Json.str t.topic),
    (JKey.summary, Json.str t.summary),
    (JKey.caption, Json.str t.caption),
    (JKey.hashtags, Json.arr (t.hashtags.map Json.str)),
    (JKey.storyNarrative, Json.str t.storyNarrative),
    (JKey.slideDescriptions, Json.arr (t.slideDescriptions.map Json.str)),
    (JKey.colorPalette, Json.str t.colorPalette),
    (JKey.visualMood, Json.str t.visualMood),
    (JKey.sourceUrls, Json.arr (t.sourceUrls.map Json.str))]

/-- JSON.parse of a GeneratedTrend value (reading the parsed object field by
field, as the consuming code does). -/
def decodeTrend : Json → Option GeneratedTrend
  | Json.obj fs => do
    let topic ← (jlookup JKey.topic fs).bind Json.asStr
    let summary ← (jlookup JKey.summary fs).bind Json.asStr
    let caption ← (jlookup JKey.caption fs).bind Json.asStr
    let hashtags ← (jlookup JKey.hashtags fs).bind Json.asStrList
    let storyNarrative ← (jlookup JKey.storyNarrative fs).bind Json.asStr
    let slideDescriptions ← (jlookup JKey.slideDescriptions fs).bind Json.asStrList
    let colorPalette ← (jlookup JKey.colorPalette fs).bind Json.asStr
    let visualMood ← (jlookup JKey.visualMood fs).bind Json.asStr
    let sourceUrls ← (jlookup JKey.sourceUrls fs).bind Json.asStrList
    pure ⟨topic, summary, caption, hashtags, storyNarrative, slideDescriptions,
      colorPalette, visualMood, sourceUrls⟩
  | _ => none

/-- JSON.stringify of a checkpoint: undefined optional properties are
omitted from the serialized object. -/
def encodeCheckpoint (ck : PostGenerationCheckpoint) : Json :=
  Json.obj (
    [(JKey.influencerId, Json.str ck.influencerId),
     (JKey.influencerName, Json.str ck.influencerName),
     (JKey.timestamp, Json.num ck.timestamp),
     (JKey.step, encodeStepJson ck.step)] ++
    (match ck.content with
     | none => []
     | some t => [(JKey.content, encodeTrend t)]) ++
    (match ck.images with
     | none => []
     | some imgs => [(JKey.images, Json.arr (imgs.map Json.str))]) ++
    (match ck.gridType with
     | none => []
     | some g => [(JKey.gridType, encodeGridTypeJson g)]))

/-- JSON.parse of a checkpoint: absent optional properties decode to none. -/
def decodeCheckpoint : Json → Option PostGenerationCheckpoint
  | Json.obj fs => do
    let influencerId ← (jlookup JKey.influencerId fs).bind Json.asStr
    let influencerName ← (jlookup JKey.influencerName fs).bind Json.asStr
    let timestamp ← (jlookup JKey.timestamp fs).bind Json.asNum
    let step ← (jlookup JKey.step fs).bind decodeStepJson
    let content := (jlookup JKey.content fs).bind decodeTrend
    let images := (jlookup JKey.images fs).bind Json.asStrList
    let gridType := (jlookup JKey.gridType fs).bind decodeGridTypeJson
    pure ⟨influencerId, influencerName, timestamp, step, content, images, gridType⟩
  | _ => none

/-- The mapM loop over stringified strings recovers the original list. -/
theorem mapM_loop_asStr (xs acc : List JStr) :
    List.mapM.loop Json.asStr (xs.map Json.str) acc = some (acc.reverse ++ xs) := by
  induction xs generalizing acc with
  | nil => simp [List.mapM.loop]
  | cons a as ih => simp [List.mapM.loop, Json.asStr, ih]

/-- Reading back a stringified string array recovers the original list. -/
theorem asStrList_arr_map_str (xs : List JStr) :
    Json.asStrList (Json.arr (xs.map Json.str)) = some xs := by
  have h := mapM_loop_asStr xs []
  simpa [Json.asStrList, List.mapM] using h

/-- Step tags serialize round trip. -/
theorem decodeStepJson_encode (st : PostStep) :
    decodeStepJson (encodeStepJson st) = some st := by
  cases st <;> simp [encodeStepJson, decodeStepJson, Json.asStr]

/-- Grid shapes serialize round trip. -/
theorem decodeGridTypeJson_encode (g : GridType) :
    decodeGridTypeJson (encodeGridTypeJson g) = some g := by
  cases g <;> simp [encodeGridTypeJson, decodeGridTypeJson, Json.asStr]

/-- GeneratedTrend values serialize round trip. -/
theorem decodeTrend_encodeTrend (t : GeneratedTrend) :
    decodeTrend (encodeTrend t) = some t := by
  simp [decodeTrend, encodeTrend, jlookup, Json.asStr, asStrList_arr_map_str]

/-- Checkpoints serialize round trip: JSON.parse of JSON.stringify is the
identity on every checkpoint value. -/
theorem decodeCheckpoint_encodeCheckpoint (ck : PostGenerationCheckpoint) :
    decodeCheckpoint (encodeCheckpoint ck) = some ck := by
  obtain ⟨id, nm, ts, st, content, images, gridType⟩ := ck
  cases st <;> cases content <;> cases images <;> cases gridType <;>
    simp [decodeCheckpoint, encodeCheckpoint, jlookup, Json.asStr, Json.asNum,
      decodeStepJson_encode, decodeGridTypeJson_encode, decodeTrend_encodeTrend,
      asStrList_arr_map_str]

/-- The localStorage key of a post-generation checkpoint:
STORAGE_PREFIX + post_ + influencerId. -/
def storageKeyPost (influencerId : JStr) : JStr :=
  "trendme_operation_post_".toList ++ influencerId

/-- savePostGenerationCheckpoint from persistenceService: serialize and
store under the checkpoint key, overwriting.  The store is modelled as the
key to value map of localStorage. -/
def savePostGenerationCheckpoint (store : JStr → Option Json)
    (ck : PostGenerationCheckpoint) : JStr → Option Json :=
  fun k => if k = storageKeyPost ck.influencerId then some (encodeCheckpoint ck) else store k

/-- loadPostGenerationCheckpoint from persistenceService: read and parse the
stored value; records older than one hour are treated as absent (and
purged - the removal is not part of the returned value modelled here). -/
def loadPostGenerationCheckpoint (store : JStr → Option Json) (influencerId : JStr)
    (now : Nat) : Option PostGenerationCheckpoint :=
  match store (storageKeyPost influencerId) with
  | none => none
  | some data =>
    match decodeCheckpoint data with
    | none => none
    | some ck => if now - ck.timestamp > 3600000 then none else some ck

/-- Claim C9: saving a checkpoint and loading it under its influencerId with
no intervening store operation, while its age is within the one-hour
staleness window, returns a checkpoint equal to the one saved - the full
round trip through serialization. -/
theorem checkpoint_save_load_roundtrip (store : JStr → Option Json)
    (ck : PostGenerationCheckpoint) (now : Nat)
    (h : now - ck.timestamp ≤ 3600000) :
    loadPostGenerationCheckpoint (savePostGenerationCheckpoint store ck)
      ck.influencerId now = some ck := by
  simp [loadPostGenerationCheckpoint, savePostGenerationCheckpoint,
    decodeCheckpoint_encodeCheckpoint]
  omega

/-- A concrete content payload for the checkpoint witness. -/
def sampleTrend : GeneratedTrend :=
  ⟨"topic".toList, "sum".toList, "cap".toList, ["#a".toList], "narr".toList,
   ["s1".toList, "s2".toList, "s3".toList, "s4".toList], "palette".toList, "mood".toList, []⟩

/-- A concrete checkpoint at step images with content and grid shape. -/
def sampleCheckpoint : PostGenerationCheckpoint :=
  ⟨"inf1".toList, "Ava".toList, 0, PostStep.images, some sampleTrend, none, some GridType.g2x2⟩

/-- Concrete run of checkpoint_save_load_roundtrip: save into an empty
store at time 0 and load at time 1000. -/
theorem checkpoint_save_load_roundtrip_witness :
    1000 - sampleCheckpoint.timestamp ≤ 3600000 ∧
    loadPostGenerationCheckpoint
      (savePostGenerationCheckpoint (fun _ => none) sampleCheckpoint)
      sampleCheckpoint.influencerId 1000 = some sampleCheckpoint :=
  ⟨by decide, checkpoint_save_load_roundtrip (fun _ => none) sampleCheckpoint 1000 (by decide)⟩

/-- The externally observable operations of the post-pipeline resume
handlers in InfluencerFeed, in order: content generation
(generateTrendPostContent), image grid generation (generateGridImages),
the parallel upload (uploadImages), the post save (savePost), and the
checkpoint save and clear. -/
inductive PipeOp
  | genContent
  | genImages
  | uploadImgs
  | savePostOp
  | saveCkpt
  | clearCkpt
deriving DecidableEq

/-- handleResumeFromCheckpoint from InfluencerFeed: when the checkpoint is
at step images with a content payload, run image generation (which never
rejects - on failure it degrades to placeholders), save the advanced
checkpoint, upload, save the post and clear the checkpoint; a rejection of
upload or save jumps to the catch block, ending the run.  Any other
checkpoint makes the try block a no-op.  uploadRes and saveRes are the
outcomes of the two fallible awaits. -/
def handleResumeFromCheckpoint (ck : PostGenerationCheckpoint)
    (uploadRes : Except ErrorRep (List JStr)) (saveRes : Except ErrorRep Unit) :
    List PipeOp :=
  if ck.step = PostStep.images ∧ ck.content.isSome then
    PipeOp.genImages :: PipeOp.saveCkpt :: PipeOp.uploadImgs ::
      (match uploadRes with
       | Except.error _ => []
       | Except.ok _ => PipeOp.savePostOp ::
         (match saveRes with
          | Except.error _ => []
          | Except.ok _ => [PipeOp.clearCkpt]))
  else []

/-- handleResumeUpload from InfluencerFeed: upload the checkpointed images,
save the post and clear the checkpoint; a rejection jumps to the catch
block, ending the run. -/
def handleResumeUpload (ck : PostGenerationCheckpoint)
    (uploadRes : Except ErrorRep (List JStr)) (saveRes : Except ErrorRep Unit) :
    List PipeOp :=
  PipeOp.uploadImgs ::
    (match uploadRes with
     | Except.error _ => []
     | Except.ok _ => PipeOp.savePostOp ::
       (match saveRes with
        | Except.error _ => []
        | Except.ok _ => [PipeOp.clearCkpt]))

/-- The mount-time resume dispatch of InfluencerFeed, after the user
confirms: a checkpoint with content at step images resumes from image
generation; a checkpoint with images at step upload resumes from upload. -/
def resumeDispatch (ck : PostGenerationCheckpoint)
    (uploadRes : Except ErrorRep (List JStr)) (saveRes : Except ErrorRep Unit) :
    List PipeOp :=
  if ck.content.isSome ∧ ck.step = PostStep.images then
    handleResumeFromCheckpoint ck uploadRes saveRes
  else if ck.images.isSome ∧ ck.step = PostStep.upload then
    handleResumeUpload ck uploadRes saveRes
  else []

/-- Claim C2: resuming a checkpoint at step images with stored content never
invokes content generation - the run starts with image generation, the
checkpoint save and the upload; and resuming a checkpoint at step upload
with stored images never invokes image generation (nor content
generation) - the run starts with the upload.  uploadRes, saveRes range
over all outcomes of the fallible remote calls. -/
theorem resume_skips_completed_steps (ck ckU : PostGenerationCheckpoint)
    (uploadRes uploadResU : Except ErrorRep (List JStr))
    (saveRes saveResU : Except ErrorRep Unit)
    (h1 : ck.step = PostStep.images) (h2 : ck.content.isSome)
    (h3 : ckU.step = PostStep.upload) (h4 : ckU.images.isSome) :
    PipeOp.genContent ∉ resumeDispatch ck uploadRes saveRes ∧
    (resumeDispatch ck uploadRes saveRes).take 3 =
      [PipeOp.genImages, PipeOp.saveCkpt, PipeOp.uploadImgs] ∧
    PipeOp.genContent ∉ resumeDispatch ckU uploadResU saveResU ∧
    PipeOp.genImages ∉ resumeDispatch ckU uploadResU saveResU ∧
    (resumeDispatch ckU uploadResU saveResU).take 1 = [PipeOp.uploadImgs] := by
  have hd : resumeDispatch ck uploadRes saveRes =
      handleResumeFromCheckpoint ck uploadRes saveRes := by
    simp [resumeDispatch, h1, h2]
  have hdU : resumeDispatch ckU uploadResU saveResU =
      handleResumeUpload ckU uploadResU saveResU := by
    simp [resumeDispatch, h3, h4]
  rw [hd, hdU]
  refine ⟨?_, ?_, ?_, ?_, ?_⟩ <;>
    simp only [handleResumeFromCheckpoint, handleResumeUpload, h1, h2, if_pos, and_self] <;>
    cases uploadRes <;> cases uploadResU <;> cases saveRes <;> cases saveResU <;> simp

/-- A concrete checkpoint at step upload with stored images. -/
def sampleUploadCheckpoint : PostGenerationCheckpoint :=
  ⟨"inf1".toList, "Ava".toList, 0, PostStep.upload, some sampleTrend,
   some ["img".toList], some GridType.g2x2⟩

/-- Concrete run of resume_skips_completed_steps: resume sampleCheckpoint
(step images) and sampleUploadCheckpoint (step upload) with successful
upload and save. -/
theorem resume_skips_completed_steps_witness :
    sampleCheckpoint.step = PostStep.images ∧
    sampleCheckpoint.content.isSome = true ∧
    sampleUploadCheckpoint.step = PostStep.upload ∧
    sampleUploadCheckpoint.images.isSome = true ∧
    PipeOp.genContent ∉ resumeDispatch sampleCheckpoint
      (Except.ok ["u".toList]) (Except.ok ()) ∧
    (resumeDispatch sampleCheckpoint (Except.ok ["u".toList]) (Except.ok ())).take 3 =
      [PipeOp.genImages, PipeOp.saveCkpt, PipeOp.uploadImgs] ∧
    PipeOp.genContent ∉ resumeDispatch sampleUploadCheckpoint
      (Except.ok ["u".toList]) (Except.ok ()) ∧
    PipeOp.genImages ∉ resumeDispatch sampleUploadCheckpoint
      (Except.ok ["u".toList]) (Except.ok ()) ∧
    (resumeDispatch sampleUploadCheckpoint (Except.ok ["u".toList]) (Except.ok ())).take 1 =
      [PipeOp.uploadImgs] := by
  refine ⟨rfl, rfl, rfl, rfl, ?_⟩
  have hc := resume_skips_completed_steps sampleCheckpoint sampleUploadCheckpoint
    (Except.ok ["u".toList]) (Except.ok ["u".toList]) (Except.ok ()) (Except.ok ())
    rfl rfl rfl rfl
  exact ⟨hc.1, hc.2.1, hc.2.2.1, hc.2.2.2.1, hc.2.2.2.2⟩

/-- uploadImages from the firebase service: map uploadImage over the image
list and Promise.all the results - all uploads are issued together and
awaited jointly; a single rejection rejects the whole call.  The per-image
upload is the oracle up from image payload to resulting download URL. -/
def uploadImages (up : JStr → Except ErrorRep JStr) (base64Images : List JStr) :
    Except ErrorRep (List JStr) :=
  base64Images.mapM up

/-- Claim C10: a successful uploadImages call returns exactly one URL per
input image, and the URL at index i is the result of uploading the image
at index i - input order is preserved. -/
theorem uploadImages_order (up : JStr → Except ErrorRep JStr) (imgs urls : List JStr)
    (h : uploadImages up imgs = Except.ok urls) :
    urls.length = imgs.length ∧
    ∀ (i : Nat) (hi : i < imgs.length) (hu : i < urls.length),
      up (imgs.get ⟨i, hi⟩) = Except.ok (urls.get ⟨i, hu⟩) := by
  rw [uploadImages] at h
  induction imgs generalizing urls with
  | nil =>
    simp only [List.mapM_nil] at h
    cases h
    exact ⟨rfl, by intro i hi hu; exact absurd hi (by simp)⟩
  | cons a as ih =>
    rw [List.mapM_cons] at h
    cases hup : up a with
    | error e => rw [hup] at h; exact nomatch h
    | ok b =>
      rw [hup] at h
      cases hrest : List.mapM up as with
      | error e => rw [hrest] at h; exact nomatch h
      | ok bs =>
        rw [hrest] at h
        simp only [bind_pure_comp, map_pure, pure_bind] at h
        cases h
        obtain ⟨hlen, hidx⟩ := ih bs hrest
        refine ⟨by simp [hlen], ?_⟩
        intro i hi hu
        cases i with
        | zero => simpa using hup
        | succ n =>
          have hn : n < as.length := by simpa using hi
          have hn' : n < bs.length := by simpa using hu
          simpa using hidx n hn hn'

/-- The concrete per-image upload oracle of the uploadImages witness:
every upload resolves with the image payload suffixed by .url. -/
def appendUrlOracle : JStr → Except ErrorRep JStr :=
  fun s => Except.ok (s ++ ".url".toList)

/-- Concrete run of uploadImages_order: two images uploaded through an
oracle appending a suffix; order and arity are preserved. -/
theorem uploadImages_order_witness :
    uploadImages appendUrlOracle ["a".toList, "b".toList] =
      Except.ok ["a.url".toList, "b.url".toList] ∧
    (["a.url".toList, "b.url".toList] : List JStr).length =
      (["a".toList, "b".toList] : List JStr).length ∧
    ∀ (i : Nat) (hi : i < (["a".toList, "b".toList] : List JStr).length)
      (hu : i < (["a.url".toList, "b.url".toList] : List JStr).length),
      appendUrlOracle ((["a".toList, "b".toList] : List JStr).get ⟨i, hi⟩) =
        Except.ok ((["a.url".toList, "b.url".toList] : List JStr).get ⟨i, hu⟩) := by
  refine ⟨rfl, ?_⟩
  exact uploadImages_order appendUrlOracle
    ["a".toList, "b".toList] ["a.url".toList, "b.url".toList] rfl
